import Mathlib

/-!
Verification of `src/vscode-remote-mcp/src/tools/deploy_vscode_instance.js`.

The JavaScript module is embedded shallowly: every external effect (container
runtime probing, TCP bind attempts, random number generation, filesystem
access, command execution) is represented by an explicit oracle in an
environment record, and the functions of the module become pure Lean
functions from the parameter object and the environment to a structured
result plus an effect trace.
-/

set_option maxRecDepth 100000

namespace Vsc

/-- JavaScript `a || d` applied to an optional string environment variable:
`undefined` and the empty string are falsy and fall back to the default
(lines 17 to 21 of the source). -/
def jsOr : Option String → String → String
  | none, d => d
  | some s, d => if s = "" then d else s

/-- The raw process environment variables read at module load time. -/
structure ConfigEnv where
  DEFAULT_PASSWORD : Option String
  DEFAULT_EXTENSIONS : Option String
  DEFAULT_CPU_LIMIT : Option String
  DEFAULT_MEMORY_LIMIT : Option String
  CONTAINER_RUNTIME : Option String
deriving DecidableEq, Repr

/-- The module level configuration constants (lines 17 to 21). -/
structure Config where
  defaultPassword : String
  defaultExtensions : String
  defaultCpuLimit : String
  defaultMemoryLimit : String
  containerRuntime : String
deriving DecidableEq, Repr

/-- Evaluation of lines 17 to 21 of the source on a process environment. -/
def Config.fromEnv (e : ConfigEnv) : Config :=
  { defaultPassword := jsOr e.DEFAULT_PASSWORD "changeme"
    defaultExtensions := jsOr e.DEFAULT_EXTENSIONS "ms-python.python,dbaeumer.vscode-eslint"
    defaultCpuLimit := jsOr e.DEFAULT_CPU_LIMIT "1.0"
    defaultMemoryLimit := jsOr e.DEFAULT_MEMORY_LIMIT "2g"
    containerRuntime := jsOr e.CONTAINER_RUNTIME "auto" }

/-- Outcome of one attempt to bind a TCP listener to a port: either the
`listening` event fires, or the `error` event fires with an error code. -/
inductive BindOutcome where
  | success
  | failure (code : String)
deriving DecidableEq, Repr

/-- The pattern (second argument) is an initial segment of the character
list (first argument). -/
def charsStartWith : List Char → List Char → Bool
  | _, [] => true
  | [], _ :: _ => false
  | c :: cs, d :: ds => c == d && charsStartWith cs ds

/-- The pattern occurs contiguously somewhere in the character list. -/
def charsContains (pat : List Char) : List Char → Bool
  | [] => charsStartWith [] pat
  | c :: rest => charsStartWith (c :: rest) pat || charsContains pat rest

/-- JavaScript `String.prototype.includes` (used at line 237 of the source
to classify the launch error message). -/
def includes (s pat : String) : Bool :=
  charsContains pat.data s.data

/-- Accumulator loop for splitting a character list on a separator. -/
def splitOnCharAux (sep : Char) : List Char → List Char → List String
  | [], acc => [String.mk acc.reverse]
  | c :: rest, acc =>
    if c == sep then String.mk acc.reverse :: splitOnCharAux sep rest []
    else splitOnCharAux sep rest (c :: acc)

/-- JavaScript `String.prototype.split` with a single character separator
(line 197 splits the default extension list on commas). -/
def splitOnChar (sep : Char) (s : String) : List String :=
  splitOnCharAux sep s.data []

/-- JavaScript `uuidv4().substring(0, 8)` (line 141): the first eight
characters of the identifier string. -/
def take8 (s : String) : String :=
  String.mk (s.data.take 8)

/-- The string contains only whitespace, so that JavaScript
`s.trim()` would be empty (the emptiness test on the status query output
at line 286). -/
def isBlank (s : String) : Bool :=
  s.data.all (fun c => c == ' ' || c == '\t' || c == '\n' || c == '\r')

/-- The path starts with a slash, in which case `path.resolve` keeps it
unchanged up to normalization. -/
def isAbsolutePath (s : String) : Bool :=
  match s.data with
  | [] => false
  | c :: _ => c == '/'

/-- Concatenation of a list of strings with a separator between adjacent
elements, structurally recursive so that concrete commands evaluate. -/
def joinWithSep (sep : String) : List String → String
  | [] => ""
  | [s] => s
  | s :: rest => s ++ sep ++ joinWithSep sep rest

/-- `checkPortAvailability` (lines 388 to 411): resolves `false` exactly when
the bind fails with code EADDRINUSE; a successful bind or any other failure
resolves `true`. -/
def checkPortAvailability (bind : Nat → BindOutcome) (port : Nat) : Bool :=
  match bind port with
  | .success => true
  | .failure code => if code = "EADDRINUSE" then false else true

/-- `minPort` in `getRandomPort` (line 419). -/
def minPort : Nat := 10000

/-- `maxPort` in `getRandomPort` (line 420). -/
def maxPort : Nat := 65535

/-- `maxAttempts` in `getRandomPort` (line 421). -/
def maxAttempts : Nat := 10

/-- The candidate produced at random draw `i`:
`Math.floor(Math.random() * (maxPort - minPort + 1)) + minPort` (line 424),
with the raw draw modelled as an arbitrary natural number stream. -/
def drawnPort (rand : Nat → Nat) (i : Nat) : Nat :=
  minPort + rand i % (maxPort - minPort + 1)

/-- The message of the error thrown on exhaustion (line 433). -/
def portExhaustionMsg : String :=
  "Could not find an available port after multiple attempts"

/-- The loop of `getRandomPort` (lines 423 to 430), with `fuel` remaining
attempts and `i` the index into the random stream; on success it returns the
port together with the next unused stream index. -/
def getRandomPortAux (bind : Nat → BindOutcome) (rand : Nat → Nat) :
    Nat → Nat → Except String (Nat × Nat)
  | _, 0 => .error portExhaustionMsg
  | i, fuel + 1 =>
    if checkPortAvailability bind (drawnPort rand i) then .ok (drawnPort rand i, i + 1)
    else getRandomPortAux bind rand (i + 1) fuel

/-- `getRandomPort` (lines 417 to 434). -/
def getRandomPort (bind : Nat → BindOutcome) (rand : Nat → Nat) (i : Nat) :
    Except String (Nat × Nat) :=
  getRandomPortAux bind rand i maxAttempts

/-- Outcomes of the four engine probes run by `detectContainerRuntime`
(`docker --version`, `docker ps`, `podman --version`, `podman ps`). -/
structure DetectEnv where
  dockerVersionOk : Bool
  dockerPsOk : Bool
  podmanVersionOk : Bool
  podmanPsOk : Bool
deriving DecidableEq, Repr

/-- The message of the error thrown when no runtime is found (line 72). -/
def noRuntimeMsg : String :=
  "Neither Docker nor Podman is available or running. Please install and start one of them."

/-- `detectContainerRuntime` (lines 30 to 73). The module level mutable
`detectedRuntime` cache is passed in and the (possibly updated) cache is
returned alongside the result. -/
def detectContainerRuntime (cfg : Config) (d : DetectEnv) (cache : Option String) :
    Except String String × Option String :=
  match cache with
  | some r => (.ok r, some r)
  | none =>
    if cfg.containerRuntime ≠ "auto" then
      (.ok cfg.containerRuntime, some cfg.containerRuntime)
    else if d.dockerVersionOk && d.dockerPsOk then (.ok "docker", some "docker")
    else if d.podmanVersionOk && d.podmanPsOk then (.ok "podman", some "podman")
    else (.error noRuntimeMsg, none)

/-- Line 124 of `deployVSCodeInstance`:
`params.runtime ? params.runtime : await detectContainerRuntime()`.
A truthy override is used verbatim and the detector, hence the cache, is
never touched. -/
def resolveRuntimeStep (cfg : Config) (d : DetectEnv) (cache : Option String)
    (r : Option String) : Except String String × Option String :=
  match r with
  | some s => if s = "" then detectContainerRuntime cfg d cache else (.ok s, cache)
  | none => detectContainerRuntime cfg d cache

/-- The credential flag component of `buildContainerCommand`
(lines 362 to 365): empty string means passwordless, so no flag at all.
In the deployment flow the password argument is always a defined string,
so the `undefined` and `null` cases of the source collapse onto the empty
string check. -/
def passwordEnvFlag (password : String) : String :=
  if password = "" then "" else "-e PASSWORD=" ++ password

/-- The environment variable flags component (lines 352 to 354). -/
def envVarFlags (environment : List (String × String)) : String :=
  joinWithSep " " (environment.map (fun kv => "-e " ++ kv.1 ++ "=" ++ kv.2))

/-- The restart flag (line 360): Podman uses the `=` syntax. -/
def restartFlagFor (runtime : String) : String :=
  if runtime = "podman" then "--restart=unless-stopped" else "--restart unless-stopped"

/-- The thirteen segments of the template literal of `buildContainerCommand`
(lines 368 to 380); in the source each segment ends with a space, an escaped
newline, and four spaces of indentation, so the full command is these
segments joined by five spaces. -/
def buildContainerCommandParts (runtime instanceName workspacePath : String) (port : Nat)
    (password : String) (extensions : List String) (cpuLimit memoryLimit : String)
    (environment : List (String × String)) : List String :=
  [runtime ++ " run -d",
   "--name " ++ instanceName,
   restartFlagFor runtime,
   "-p " ++ toString port ++ ":8080",
   "-v " ++ workspacePath ++ ":/workspace",
   "-v vscode-data-" ++ instanceName ++ ":/home/coder/.local/share/code-server",
   "-v vscode-extensions-" ++ instanceName ++ ":/home/coder/.vscode/extensions",
   "--cpus=" ++ cpuLimit,
   "--memory=" ++ memoryLimit,
   envVarFlags environment,
   passwordEnvFlag password,
   "-e EXTENSIONS=" ++ joinWithSep "," extensions,
   "codercom/code-server:latest"]

/-- `buildContainerCommand` (lines 350 to 381). -/
def buildContainerCommand (runtime instanceName workspacePath : String) (port : Nat)
    (password : String) (extensions : List String) (cpuLimit memoryLimit : String)
    (environment : List (String × String)) : String :=
  joinWithSep "     "
    (buildContainerCommandParts runtime instanceName workspacePath port password
      extensions cpuLimit memoryLimit environment)

/-- The tool parameter object (lines 77 to 87). `name` and `workspace_path`
are modelled as strings where the empty string stands for the falsy values
(missing or empty) rejected by the guards at lines 90 and 105; the other
optional parameters are modelled with `Option`. A requested port of `some 0`
is falsy in JavaScript and is treated as unspecified (line 167). -/
structure Params where
  name : String
  workspace_path : String
  port : Option Nat
  password : Option String
  extensions : Option (List String)
  cpu_limit : Option String
  memory_limit : Option String
  environment : Option (List (String × String))
  runtime : Option String
deriving DecidableEq, Repr

/-- The external environment of one provisioning call: every effectful
operation of the source is an oracle here. -/
structure Env where
  detect : DetectEnv
  bind : Nat → BindOutcome
  rand : Nat → Nat
  uuid : String
  cwd : String
  now : String
  workspaceExists : Bool
  mkdirResult : Except String Unit
  writeResult : Except String Unit
  launchResult : Except String Unit
  unlinkResult : Except String Unit
  statusResult : Except String String

/-- One element of the `content` array of a result object. -/
structure ContentItem where
  type : String
  text : String
deriving DecidableEq, Repr

/-- The `details` object of an error (lines 182 to 184 and 258 to 260). -/
structure ErrorDetails where
  suggested_port : Nat
deriving DecidableEq, Repr

/-- The `error` object of a failure result. -/
structure ErrorInfo where
  code : Int
  message : String
  details : Option ErrorDetails
deriving DecidableEq, Repr

/-- The flat success fields of the result object (lines 310 to 318),
grouped into one record in the embedding. -/
structure SuccessInfo where
  id : String
  name : String
  instance_name : String
  runtime : String
  port : Nat
  url : String
  status : String
  workspace_path : String
  passwordless : Bool
deriving DecidableEq, Repr

/-- A result object returned by `deployVSCodeInstance`: a `content` array
plus either an `error` object or the success fields. -/
structure DeployResult where
  content : List ContentItem
  error : Option ErrorInfo
  success : Option SuccessInfo
deriving DecidableEq, Repr

/-- The instance configuration written to the record file (lines 211 to 222),
with exactly the fields of the source object, in source order. -/
structure InstanceConfig where
  id : String
  name : String
  instance_name : String
  workspace_path : String
  port : Nat
  extensions : List String
  cpu_limit : String
  memory_limit : String
  environment : List (String × String)
  created_at : String
deriving DecidableEq, Repr

/-- A minimal JSON value type for the serialized record. -/
inductive Json where
  | str (s : String)
  | num (n : Nat)
  | arr (elems : List Json)
  | obj (fields : List (String × Json))

/-- `JSON.stringify(instanceConfig)` (line 226) as a key value list;
JavaScript serializes object keys in insertion order, which is the literal
order of lines 211 to 222. -/
def serializeInstanceConfig (c : InstanceConfig) : List (String × Json) :=
  [("id", .str c.id),
   ("name", .str c.name),
   ("instance_name", .str c.instance_name),
   ("workspace_path", .str c.workspace_path),
   ("port", .num c.port),
   ("extensions", .arr (c.extensions.map Json.str)),
   ("cpu_limit", .str c.cpu_limit),
   ("memory_limit", .str c.memory_limit),
   ("environment", .obj (c.environment.map (fun kv => (kv.1, Json.str kv.2)))),
   ("created_at", .str c.created_at)]

/-- The field names of the serialized instance record, in source order. -/
def instanceConfigKeys : List String :=
  ["id", "name", "instance_name", "workspace_path", "port", "extensions",
   "cpu_limit", "memory_limit", "environment", "created_at"]

/-- The effect trace of one provisioning call: final runtime cache, the
record written (if any) with its path, whether the record file still exists
when the call returns, and whether the launch command was executed. -/
structure Trace where
  cacheAfter : Option String
  recordWritten : Option InstanceConfig
  recordPath : Option String
  recordExists : Bool
  launchAttempted : Bool
  launchCommand : Option String
deriving DecidableEq, Repr

/-- `path.resolve(params.workspace_path)` (line 145), restricted to the
normalization free cases: absolute paths are kept and relative paths are
joined onto the working directory. -/
def pathResolve (cwd p : String) : String :=
  if isAbsolutePath p then p else cwd ++ "/" ++ p

/-- `path.join(__dirname, ../../vscode-instances)` (line 207): a fixed
directory of the host, modelled as a constant. -/
def instancesDir : String := "vscode-instances"

/-- An error result object: a single text content item plus an `error`
object with `code`, `message` and optional `details`. -/
def mkError (text : String) (code : Int) (message : String)
    (details : Option ErrorDetails) : DeployResult :=
  { content := [{ type := "text", text := text }]
    error := some { code := code, message := message, details := details }
    success := none }

/-- The result produced by the final catch block (lines 320 to 334) for an
exception with the given message. -/
def genericFailure (msg : String) : DeployResult :=
  mkError ("Error: Failed to deploy VSCode instance: " ++ msg) (-32603)
    ("Failed to deploy VSCode instance: " ++ msg) none

/-- The port resolution step (lines 165 to 191): either a resolved port with
the next random stream index, or an early error result. An exhaustion error
thrown by `getRandomPort` propagates to the outer catch block. -/
def resolvePortStep (env : Env) (reqPort : Option Nat) : Except DeployResult (Nat × Nat) :=
  match reqPort with
  | some q =>
    if q = 0 then
      match getRandomPort env.bind env.rand 0 with
      | .ok pr => .ok pr
      | .error msg => .error (genericFailure msg)
    else if checkPortAvailability env.bind q then .ok (q, 0)
    else
      match getRandomPort env.bind env.rand 0 with
      | .ok (alt, _) =>
        .error (mkError
          ("Error: Port " ++ toString q ++ " is already in use. Consider using port "
            ++ toString alt ++ " instead.")
          (-32603) ("Port " ++ toString q ++ " is already in use")
          (some { suggested_port := alt }))
      | .error msg => .error (genericFailure msg)
  | none =>
    match getRandomPort env.bind env.rand 0 with
    | .ok pr => .ok pr
    | .error msg => .error (genericFailure msg)

/-- `deployVSCodeInstance` (lines 89 to 335): the complete provisioning
call, from the validated parameter object and the environment oracles to
the returned result object and the effect trace. -/
def deployVSCodeInstance (cfg : Config) (env : Env) (cache : Option String)
    (p : Params) : DeployResult × Trace :=
  let tr0 : Trace :=
    { cacheAfter := cache, recordWritten := none, recordPath := none,
      recordExists := false, launchAttempted := false, launchCommand := none }
  if p.name = "" then
    (mkError "Error: name parameter is required" (-32602)
      "name parameter is required" none, tr0)
  else if p.workspace_path = "" then
    (mkError "Error: workspace_path parameter is required" (-32602)
      "workspace_path parameter is required" none, tr0)
  else
    match resolveRuntimeStep cfg env.detect cache p.runtime with
    | (.error msg, cache1) =>
      (mkError ("Error: " ++ msg) (-32603) msg none, { tr0 with cacheAfter := cache1 })
    | (.ok runtime, cache1) =>
      let tr1 := { tr0 with cacheAfter := cache1 }
      let instanceId := take8 env.uuid
      let instanceName := "vscode-" ++ p.name ++ "-" ++ instanceId
      let workspacePath := pathResolve env.cwd p.workspace_path
      if !env.workspaceExists then
        (mkError ("Error: Workspace path not found: " ++ workspacePath) (-32602)
          ("Workspace path not found: " ++ workspacePath) none, tr1)
      else
        match resolvePortStep env p.port with
        | .error res => (res, tr1)
        | .ok (port, ridx) =>
          let password := p.password.getD cfg.defaultPassword
          let extensions := p.extensions.getD (splitOnChar ',' cfg.defaultExtensions)
          let cpuLimit := jsOr p.cpu_limit cfg.defaultCpuLimit
          let memoryLimit := jsOr p.memory_limit cfg.defaultMemoryLimit
          let environment := p.environment.getD []
          match env.mkdirResult with
          | .error msg => (genericFailure msg, tr1)
          | .ok _ =>
            let instanceConfig : InstanceConfig :=
              { id := instanceId, name := p.name, instance_name := instanceName,
                workspace_path := workspacePath, port := port,
                extensions := extensions, cpu_limit := cpuLimit,
                memory_limit := memoryLimit, environment := environment,
                created_at := env.now }
            let configPath := instancesDir ++ "/" ++ instanceName ++ ".json"
            match env.writeResult with
            | .error msg => (genericFailure msg, tr1)
            | .ok _ =>
              let containerCommand :=
                buildContainerCommand runtime instanceName workspacePath port
                  password extensions cpuLimit memoryLimit environment
              let tr3 : Trace :=
                { tr1 with
                  recordWritten := some instanceConfig,
                  recordPath := some configPath, recordExists := true,
                  launchAttempted := true, launchCommand := some containerCommand }
              match env.launchResult with
              | .error errMsg =>
                if includes errMsg "port is already allocated" then
                  let tr4 :=
                    match env.unlinkResult with
                    | .ok _ => { tr3 with recordExists := false }
                    | .error _ => tr3
                  match getRandomPort env.bind env.rand ridx with
                  | .ok (alt, _) =>
                    (mkError
                      ("Error: Port " ++ toString port
                        ++ " is already allocated. Consider using port "
                        ++ toString alt ++ " instead.")
                      (-32603) ("Port " ++ toString port ++ " is already allocated")
                      (some { suggested_port := alt }), tr4)
                  | .error msg => (genericFailure msg, tr4)
                else
                  (mkError ("Error deploying " ++ runtime ++ " container: " ++ errMsg)
                    (-32603)
                    ("Failed to deploy " ++ runtime ++ " container: " ++ errMsg)
                    none, tr3)
              | .ok _ =>
                match env.statusResult with
                | .error msg => (genericFailure msg, tr3)
                | .ok containerStatus =>
                  if isBlank containerStatus then
                    (mkError "Error: Failed to start VSCode instance" (-32603)
                      "Failed to start VSCode instance" none, tr3)
                  else
                    let authInfo :=
                      if password = "" then "Authentication: Passwordless"
                      else "Password: " ++ password
                    let summary :=
                      "VSCode instance deployed successfully!\n\nRuntime: "
                        ++ runtime ++ "\nName: " ++ p.name ++ "\nInstance ID: "
                        ++ instanceId ++ "\nURL: http://localhost:" ++ toString port
                        ++ "\n" ++ authInfo ++ "\nStatus: running\nWorkspace: "
                        ++ workspacePath
                    let info : SuccessInfo :=
                      { id := instanceId
                        name := p.name
                        instance_name := instanceName
                        runtime := runtime
                        port := port
                        url := "http://localhost:" ++ toString port
                        status := "running"
                        workspace_path := workspacePath
                        passwordless := password == "" }
                    ({ content := [{ type := "text", text := summary }]
                       error := none
                       success := some info }, tr3)

/-- The configuration obtained when none of the five environment variables
is set: all defaults apply and runtime selection is automatic. -/
def cfgDefault : Config := Config.fromEnv ⟨none, none, none, none, none⟩

/-- A fully cooperative environment: both engines respond, every TCP bind
succeeds, every random draw yields 12345, the filesystem works, the launch
command succeeds and the status query reports a running container. -/
def envGood : Env :=
  { detect :=
      { dockerVersionOk := true, dockerPsOk := true,
        podmanVersionOk := true, podmanPsOk := true }
    bind := fun _ => .success
    rand := fun _ => 2345
    uuid := "abcd1234efgh"
    cwd := "/app"
    now := "2026-01-01T00:00:00.000Z"
    workspaceExists := true
    mkdirResult := .ok ()
    writeResult := .ok ()
    launchResult := .ok ()
    unlinkResult := .ok ()
    statusResult := .ok "Up 2 seconds" }

/-- The end to end scenario parameter object of the specification:
name demo, workspace /tmp/ws, requested port 12345, empty password. -/
def paramsDemo : Params :=
  { name := "demo", workspace_path := "/tmp/ws", port := some 12345,
    password := some "", extensions := none, cpu_limit := none,
    memory_limit := none, environment := none, runtime := none }

/-- An environment in which every TCP bind fails with EADDRINUSE. -/
def envAllBusy : Env := { envGood with bind := fun _ => .failure "EADDRINUSE" }

/-- An environment in which the probe reports every port free but the
engine rejects the launch with a port allocation error. -/
def envLaunchAllocated : Env :=
  { envGood with launchResult := .error "port is already allocated" }

/-- An environment in which the launch fails with a message unrelated to
port allocation. -/
def envLaunchOther : Env :=
  { envGood with launchResult := .error "image not found" }

/-- The demo parameters with an explicit runtime override. -/
def paramsOverride : Params := { paramsDemo with runtime := some "podman" }

/-- The demo parameters with a caller supplied environment mapping that
itself sets the PASSWORD variable. -/
def paramsEnvPassword : Params :=
  { paramsDemo with environment := some [("PASSWORD", "x")] }

/-! ## Properties of the port allocator and the port prober -/

/-- Any port returned by the allocation loop passed the availability probe. -/
theorem getRandomPortAux_ok_free (bind : Nat → BindOutcome) (rand : Nat → Nat) :
    ∀ (fuel i p j : Nat), getRandomPortAux bind rand i fuel = .ok (p, j) →
      checkPortAvailability bind p = true := by
  intro fuel
  induction fuel with
  | zero => intro i p j h; simp [getRandomPortAux] at h
  | succ n ih =>
    intro i p j h
    by_cases hb : checkPortAvailability bind (drawnPort rand i) = true
    · simp only [getRandomPortAux, hb, if_true] at h
      obtain ⟨hp, _⟩ := Prod.mk.injEq .. ▸ Except.ok.inj h
      exact hp ▸ hb
    · simp only [getRandomPortAux, hb, if_false, Bool.false_eq_true] at h
      exact ih (i + 1) p j h

/-- The allocation loop with `fuel` remaining attempts either returns a port
in the fixed range, or fails with the exhaustion message after probing every
one of its `fuel` candidates and finding each busy. -/
theorem getRandomPortAux_spec (bind : Nat → BindOutcome) (rand : Nat → Nat) :
    ∀ (fuel i : Nat),
      (∃ p j, getRandomPortAux bind rand i fuel = .ok (p, j) ∧ minPort ≤ p ∧ p ≤ maxPort) ∨
      (getRandomPortAux bind rand i fuel = .error portExhaustionMsg ∧
        ∀ k, k < fuel → checkPortAvailability bind (drawnPort rand (i + k)) = false) := by
  intro fuel
  induction fuel with
  | zero =>
    intro i
    exact Or.inr ⟨rfl, fun k hk => absurd hk (Nat.not_lt_zero k)⟩
  | succ n ih =>
    intro i
    by_cases hb : checkPortAvailability bind (drawnPort rand i) = true
    · refine Or.inl ⟨drawnPort rand i, i + 1, ?_, ?_, ?_⟩
      · simp [getRandomPortAux, hb]
      · unfold drawnPort minPort; omega
      · unfold drawnPort minPort maxPort; omega
    · have hstep : getRandomPortAux bind rand i (n + 1) = getRandomPortAux bind rand (i + 1) n := by
        simp [getRandomPortAux, hb]
      rcases ih (i + 1) with ⟨p, j, heq, h1, h2⟩ | ⟨heq, hall⟩
      · exact Or.inl ⟨p, j, hstep.trans heq, h1, h2⟩
      · refine Or.inr ⟨hstep.trans heq, ?_⟩
        intro k hk
        match k with
        | 0 =>
          simpa using Bool.eq_false_iff.mpr hb
        | m + 1 =>
          have hm : m < n := by omega
          have hx := hall m hm
          have harith : i + (m + 1) = i + 1 + m := by omega
          rw [harith]
          exact hx

/-- Claim C3: every execution of the port allocator either returns a port in
the inclusive range [10000, 65535], or fails with the port exhaustion error
after exactly ten probe attempts, all of whose candidates were reported
busy; no other outcome is possible. -/
theorem c3_allocator_bounded (bind : Nat → BindOutcome) (rand : Nat → Nat) (i : Nat) :
    (∃ p j, getRandomPort bind rand i = .ok (p, j) ∧ 10000 ≤ p ∧ p ≤ 65535) ∨
    (getRandomPort bind rand i = .error portExhaustionMsg ∧
      ∀ k, k < 10 → checkPortAvailability bind (drawnPort rand (i + k)) = false) :=
  getRandomPortAux_spec bind rand maxAttempts i

/-- Witness for C3 at a concrete environment in which the first candidate
is free. -/
theorem c3_allocator_bounded_witness :
    (∃ p j, getRandomPort (fun _ => BindOutcome.success) (fun _ => 2345) 0 = .ok (p, j) ∧
      10000 ≤ p ∧ p ≤ 65535) ∨
    (getRandomPort (fun _ => BindOutcome.success) (fun _ => 2345) 0 = .error portExhaustionMsg ∧
      ∀ k, k < 10 →
        checkPortAvailability (fun _ => BindOutcome.success)
          (drawnPort (fun _ => 2345) (0 + k)) = false) :=
  c3_allocator_bounded (fun _ => BindOutcome.success) (fun _ => 2345) 0

/-- Claim C6: the port prober returns false exactly when the bind attempt
fails with the address in use code; a successful bind, and any failure with
a different code, both yield true (fail open). -/
theorem c6_prober_fail_open (bind : Nat → BindOutcome) (port : Nat) :
    (checkPortAvailability bind port = false ↔ bind port = BindOutcome.failure "EADDRINUSE") ∧
    (bind port = BindOutcome.success → checkPortAvailability bind port = true) ∧
    (∀ code, code ≠ "EADDRINUSE" → bind port = BindOutcome.failure code →
      checkPortAvailability bind port = true) := by
  refine ⟨⟨fun h => ?_, fun h => ?_⟩, fun h => ?_, fun code hc h => ?_⟩
  · unfold checkPortAvailability at h
    cases hb : bind port with
    | success => rw [hb] at h; simp at h
    | failure code =>
      rw [hb] at h
      by_cases hcode : code = "EADDRINUSE"
      · rw [hcode]
      · simp [hcode] at h
  · unfold checkPortAvailability
    rw [h]
    simp
  · unfold checkPortAvailability
    rw [h]
  · unfold checkPortAvailability
    rw [h]
    simp [hc]

/-- Witness for C6: with every bind failing with EADDRINUSE the prober
reports the port busy. -/
theorem c6_prober_fail_open_witness :
    checkPortAvailability (fun _ => BindOutcome.failure "EADDRINUSE") 8080 = false :=
  (c6_prober_fail_open (fun _ => BindOutcome.failure "EADDRINUSE") 8080).1.mpr rfl

/-! ## End to end scenarios and counterexamples -/

/-- Claim C8: the spec {name demo, workspace /tmp/ws, port 12345, empty
password} with the first engine available, the workspace present, port
12345 free, a successful launch and a nonempty status query returns a
success descriptor with passwordless true, port 12345 and the localhost
URL. -/
theorem c8_end_to_end :
    ((deployVSCodeInstance cfgDefault envGood none paramsDemo).1.success.map
      SuccessInfo.passwordless = some true) ∧
    ((deployVSCodeInstance cfgDefault envGood none paramsDemo).1.success.map
      SuccessInfo.port = some 12345) ∧
    ((deployVSCodeInstance cfgDefault envGood none paramsDemo).1.success.map
      SuccessInfo.url = some "http://localhost:12345") ∧
    (deployVSCodeInstance cfgDefault envGood none paramsDemo).1.error = none :=
  ⟨rfl, rfl, rfl, rfl⟩

/-- Counterexample to claim C1 as stated: the requested port 12345 passes
the probe, the engine rejects the launch with a port allocation message,
the record is rolled back, but the suggested port in the returned error is
12345 itself, not a port different from the requested one. -/
theorem c1_counterexample :
    paramsDemo.port = some 12345 ∧
    checkPortAvailability envLaunchAllocated.bind 12345 = true ∧
    envLaunchAllocated.launchResult = Except.error "port is already allocated" ∧
    (deployVSCodeInstance cfgDefault envLaunchAllocated none paramsDemo).1.error =
      some
        { code := -32603
          message := "Port 12345 is already allocated"
          details := some { suggested_port := 12345 } } ∧
    (deployVSCodeInstance cfgDefault envLaunchAllocated none paramsDemo).2.recordExists
      = false :=
  ⟨rfl, rfl, rfl, rfl, rfl⟩

/-- Counterexample to claim C2 as stated: a call with the explicit override
podman succeeds using podman verbatim, yet leaves the runtime cache empty,
and the next call without an override detects and returns docker, not the
overridden value. -/
theorem c2_counterexample :
    paramsOverride.runtime = some "podman" ∧
    ((deployVSCodeInstance cfgDefault envGood none paramsOverride).1.success.map
      SuccessInfo.runtime = some "podman") ∧
    (deployVSCodeInstance cfgDefault envGood none paramsOverride).2.cacheAfter = none ∧
    ((deployVSCodeInstance cfgDefault envGood
        ((deployVSCodeInstance cfgDefault envGood none paramsOverride).2.cacheAfter)
        paramsDemo).1.success.map SuccessInfo.runtime = some "docker") :=
  ⟨rfl, rfl, rfl, rfl⟩

/-- Counterexample to claim C4 as stated: when the requested port probes
busy and every random candidate also probes busy, the allocator exhausts
its attempts and the call returns the generic failure with no suggested
port, not a port conflict error carrying a suggestion. -/
theorem c4_counterexample :
    paramsDemo.port = some 12345 ∧
    checkPortAvailability envAllBusy.bind 12345 = false ∧
    (deployVSCodeInstance cfgDefault envAllBusy none paramsDemo).1.error =
      some
        { code := -32603
          message := "Failed to deploy VSCode instance: " ++ portExhaustionMsg
          details := none } ∧
    (deployVSCodeInstance cfgDefault envAllBusy none paramsDemo).2.recordWritten = none :=
  ⟨rfl, rfl, rfl, rfl⟩

/-- Counterexample to claim C5 as stated: with an empty password but a
caller supplied environment mapping containing a PASSWORD entry, the
synthesized invocation does contain a credential environment flag. -/
theorem c5_counterexample :
    paramsEnvPassword.password = some "" ∧
    ((deployVSCodeInstance cfgDefault envGood none paramsEnvPassword).1.success.map
      SuccessInfo.passwordless = some true) ∧
    ((deployVSCodeInstance cfgDefault envGood none paramsEnvPassword).2.launchCommand.map
      (fun c => includes c "-e PASSWORD=")) = some true :=
  ⟨rfl, rfl, rfl⟩

/-! ## Amended claims about the orchestrator -/

/-- Claim C1 (amended): when the requested port passes the pre launch probe,
the launch fails with a message indicating the port is already allocated,
the record deletion succeeds, and the replacement allocation finds a free
port, the record file no longer exists after the call and the error is the
recoverable port allocation error carrying a suggested port in its details;
the suggested port is freshly allocated and is not guaranteed to differ from
the requested one. -/
theorem c1_rollback_amended (cfg : Config) (env : Env) (cache : Option String) (p : Params)
    (q alt j : Nat) (rt msg : String) (cache1 : Option String)
    (hname : p.name ≠ "") (hws : p.workspace_path ≠ "")
    (hrt : resolveRuntimeStep cfg env.detect cache p.runtime = (Except.ok rt, cache1))
    (hexists : env.workspaceExists = true)
    (hport : p.port = some q) (hq : q ≠ 0)
    (hprobe : checkPortAvailability env.bind q = true)
    (hmkdir : env.mkdirResult = Except.ok ())
    (hwrite : env.writeResult = Except.ok ())
    (hlaunch : env.launchResult = Except.error msg)
    (hcollision : includes msg "port is already allocated" = true)
    (hunlink : env.unlinkResult = Except.ok ())
    (halloc : getRandomPort env.bind env.rand 0 = Except.ok (alt, j)) :
    (deployVSCodeInstance cfg env cache p).1.error =
      some
        { code := -32603
          message := "Port " ++ toString q ++ " is already allocated"
          details := some { suggested_port := alt } } ∧
    (deployVSCodeInstance cfg env cache p).2.recordExists = false := by
  unfold deployVSCodeInstance resolvePortStep
  simp only [hname, hws, hrt, hexists, hport, hq, hprobe, hmkdir, hwrite, hlaunch,
    hcollision, hunlink, halloc, if_false, if_true, ite_false, ite_true, Bool.not_true,
    reduceIte]
  constructor <;> rfl

/-- Witness for the amended C1 at the concrete collision environment. -/
theorem c1_rollback_amended_witness :
    (deployVSCodeInstance cfgDefault envLaunchAllocated none paramsDemo).1.error =
      some
        { code := -32603
          message := "Port " ++ toString 12345 ++ " is already allocated"
          details := some { suggested_port := 12345 } } ∧
    (deployVSCodeInstance cfgDefault envLaunchAllocated none paramsDemo).2.recordExists
      = false :=
  c1_rollback_amended cfgDefault envLaunchAllocated none paramsDemo 12345 12345 1
    "docker" "port is already allocated" (some "docker") (by decide) (by decide) rfl rfl
    rfl (by decide) rfl rfl rfl rfl rfl rfl rfl

/-- Claim C4 (amended): when the caller requests a specific port and the
pre launch probe reports it occupied, the call stops with no side effects
(no record written, no record present, no launch attempted); if the
replacement allocation finds a free port the error is the recoverable port
conflict carrying that port, necessarily different from the requested one,
and if the allocation exhausts its attempts the call returns the generic
failure with no suggested port. -/
theorem c4_port_conflict_amended (cfg : Config) (env : Env) (cache : Option String)
    (p : Params) (q : Nat) (rt : String) (cache1 : Option String)
    (hname : p.name ≠ "") (hws : p.workspace_path ≠ "")
    (hrt : resolveRuntimeStep cfg env.detect cache p.runtime = (Except.ok rt, cache1))
    (hexists : env.workspaceExists = true)
    (hport : p.port = some q) (hq : q ≠ 0)
    (hprobe : checkPortAvailability env.bind q = false) :
    (deployVSCodeInstance cfg env cache p).2.recordWritten = none ∧
    (deployVSCodeInstance cfg env cache p).2.recordExists = false ∧
    (deployVSCodeInstance cfg env cache p).2.launchAttempted = false ∧
    (∀ alt j, getRandomPort env.bind env.rand 0 = Except.ok (alt, j) →
      alt ≠ q ∧
      (deployVSCodeInstance cfg env cache p).1.error =
        some
          { code := -32603
            message := "Port " ++ toString q ++ " is already in use"
            details := some { suggested_port := alt } }) ∧
    (∀ msg, getRandomPort env.bind env.rand 0 = Except.error msg →
      (deployVSCodeInstance cfg env cache p).1.error =
        some
          { code := -32603
            message := "Failed to deploy VSCode instance: " ++ msg
            details := none }) := by
  have htrace : (deployVSCodeInstance cfg env cache p).2.recordWritten = none ∧
      (deployVSCodeInstance cfg env cache p).2.recordExists = false ∧
      (deployVSCodeInstance cfg env cache p).2.launchAttempted = false := by
    unfold deployVSCodeInstance resolvePortStep
    cases hg : getRandomPort env.bind env.rand 0 with
    | ok pr =>
      obtain ⟨alt, j⟩ := pr
      simp [hname, hws, hrt, hexists, hport, hq, hprobe, hg]
    | error msg =>
      simp [hname, hws, hrt, hexists, hport, hq, hprobe, hg]
  refine ⟨htrace.1, htrace.2.1, htrace.2.2, ?_, ?_⟩
  · intro alt j halloc
    refine ⟨?_, ?_⟩
    · intro hcontra
      have hfree := getRandomPortAux_ok_free env.bind env.rand maxAttempts 0 alt j halloc
      rw [hcontra, hprobe] at hfree
      exact Bool.false_ne_true hfree
    · unfold deployVSCodeInstance resolvePortStep
      simp [hname, hws, hrt, hexists, hport, hq, hprobe, halloc, mkError]
  · intro msg halloc
    unfold deployVSCodeInstance resolvePortStep
    simp [hname, hws, hrt, hexists, hport, hq, hprobe, halloc, genericFailure, mkError]

/-- Witness for the amended C4 at the concrete all ports busy environment. -/
theorem c4_port_conflict_amended_witness :
    (deployVSCodeInstance cfgDefault envAllBusy none paramsDemo).2.recordWritten = none ∧
    (deployVSCodeInstance cfgDefault envAllBusy none paramsDemo).1.error =
      some
        { code := -32603
          message := "Failed to deploy VSCode instance: " ++ portExhaustionMsg
          details := none } := by
  have h := c4_port_conflict_amended cfgDefault envAllBusy none paramsDemo 12345
    "docker" (some "docker") (by decide) (by decide) rfl rfl rfl (by decide) rfl
  exact ⟨h.1, h.2.2.2.2 portExhaustionMsg rfl⟩

/-- Every early error produced by the port resolution step is a structured
error result: one text content item, an error object with code and message,
and no success fields. -/
theorem resolvePortStep_error_shape (env : Env) (q : Option Nat) (res : DeployResult)
    (h : resolvePortStep env q = .error res) :
    (∃ t, res.content = [{ type := "text", text := t }]) ∧
    res.error.isSome = true ∧ res.success = none := by
  unfold resolvePortStep at h
  repeat' split at h
  all_goals first
    | (injection h with h2; subst h2; exact ⟨⟨_, rfl⟩, rfl, rfl⟩)
    | injection h

/-- The runtime cache after a call is either unchanged or exactly the cache
component produced by the runtime resolution step. -/
theorem deploy_cacheAfter (cfg : Config) (env : Env) (cache : Option String) (p : Params) :
    (deployVSCodeInstance cfg env cache p).2.cacheAfter = cache ∨
    (deployVSCodeInstance cfg env cache p).2.cacheAfter =
      (resolveRuntimeStep cfg env.detect cache p.runtime).2 := by
  unfold deployVSCodeInstance
  repeat' split
  all_goals simp_all

/-- Success inversion: a success result can only arise when the runtime
resolution step succeeded, and the returned descriptor records exactly the
runtime that step produced. -/
theorem deploy_success_inv (cfg : Config) (env : Env) (cache : Option String) (p : Params)
    (s : SuccessInfo) (hs : (deployVSCodeInstance cfg env cache p).1.success = some s) :
    (resolveRuntimeStep cfg env.detect cache p.runtime).1 = Except.ok s.runtime := by
  unfold deployVSCodeInstance at hs
  repeat' split at hs
  all_goals try simp_all [mkError, genericFailure]
  · rename_i res h heq
    have hnone := (resolvePortStep_error_shape env p.port res heq).2.2
    rw [hnone] at hs
    exact absurd hs (by simp)
  · rw [← hs]

/-- Claim C2 (amended): an explicit truthy runtime override is accepted
verbatim, without verification, and is the runtime of the returned success
descriptor; but it bypasses the process wide runtime cache entirely: the
cache is left exactly as it was, so a later call with no override performs
detection independently of the override. -/
theorem c2_override_amended (cfg : Config) (env : Env) (cache : Option String) (p : Params)
    (r : String) (hr : p.runtime = some r) (hne : r ≠ "") :
    (deployVSCodeInstance cfg env cache p).2.cacheAfter = cache ∧
    (∀ s, (deployVSCodeInstance cfg env cache p).1.success = some s → s.runtime = r) := by
  have hstep : resolveRuntimeStep cfg env.detect cache p.runtime = (Except.ok r, cache) := by
    unfold resolveRuntimeStep
    rw [hr]
    simp [hne]
  refine ⟨?_, ?_⟩
  · rcases deploy_cacheAfter cfg env cache p with h | h
    · exact h
    · rw [h, hstep]
  · intro s hs
    have h := deploy_success_inv cfg env cache p s hs
    rw [hstep] at h
    exact (Except.ok.inj h).symm

/-- Witness for the amended C2 at the concrete override call. -/
theorem c2_override_amended_witness :
    (deployVSCodeInstance cfgDefault envGood none paramsOverride).2.cacheAfter = none ∧
    (∀ s, (deployVSCodeInstance cfgDefault envGood none paramsOverride).1.success = some s →
      s.runtime = "podman") :=
  c2_override_amended cfgDefault envGood none paramsOverride "podman" rfl (by decide)

/-- Claim C7: whenever the launch command is executed, the instance record
was written first; and on a launch failure whose message does not indicate
a port collision, as well as on a successful launch (whatever the startup
verification finds), the record file is still present when the call
returns. -/
theorem c7_record_persistence (cfg : Config) (env : Env) (cache : Option String) (p : Params)
    (h : (deployVSCodeInstance cfg env cache p).2.launchAttempted = true) :
    ((deployVSCodeInstance cfg env cache p).2.recordWritten).isSome = true ∧
    (env.launchResult = Except.ok () →
      (deployVSCodeInstance cfg env cache p).2.recordExists = true) ∧
    (∀ msg, env.launchResult = Except.error msg →
      includes msg "port is already allocated" = false →
      (deployVSCodeInstance cfg env cache p).2.recordExists = true) := by
  revert h
  unfold deployVSCodeInstance
  repeat' split
  all_goals intro h
  all_goals simp_all

/-- Witness for C7 at the concrete environment with a non collision launch
failure. -/
theorem c7_record_persistence_witness :
    ((deployVSCodeInstance cfgDefault envLaunchOther none paramsDemo).2.recordWritten).isSome
      = true ∧
    (deployVSCodeInstance cfgDefault envLaunchOther none paramsDemo).2.recordExists = true := by
  have h := c7_record_persistence cfgDefault envLaunchOther none paramsDemo rfl
  exact ⟨h.1, h.2.2 "image not found" rfl rfl⟩

/-- Claim C9: for every parameter object and every behavior of the
environment, the provisioning call returns a structured result: a content
array with exactly one text item, and either an error object or the
success fields, never both and never neither. -/
theorem c9_always_structured (cfg : Config) (env : Env) (cache : Option String) (p : Params) :
    (∃ t, (deployVSCodeInstance cfg env cache p).1.content = [{ type := "text", text := t }]) ∧
    (((deployVSCodeInstance cfg env cache p).1.error).isSome = true ∧
        (deployVSCodeInstance cfg env cache p).1.success = none ∨
      ((deployVSCodeInstance cfg env cache p).1.success).isSome = true ∧
        (deployVSCodeInstance cfg env cache p).1.error = none) := by
  unfold deployVSCodeInstance
  repeat' split
  all_goals first
    | exact ⟨⟨_, rfl⟩, Or.inl ⟨rfl, rfl⟩⟩
    | exact ⟨⟨_, rfl⟩, Or.inr ⟨rfl, rfl⟩⟩
    | (rename_i res heq
       obtain ⟨⟨t, hc⟩, he, hn⟩ := resolvePortStep_error_shape env p.port res heq
       exact ⟨⟨t, hc⟩, Or.inl ⟨he, hn⟩⟩)

/-- Claim C10: every call that attempts a launch has first persisted an
instance record, and the serialization of any record has exactly the ten
configuration fields of the source object, with no password field. -/
theorem c10_record_no_credential (cfg : Config) (env : Env) (cache : Option String)
    (p : Params) (h : (deployVSCodeInstance cfg env cache p).2.launchAttempted = true) :
    (∃ c, (deployVSCodeInstance cfg env cache p).2.recordWritten = some c) ∧
    (∀ c : InstanceConfig, (serializeInstanceConfig c).map Prod.fst = instanceConfigKeys) ∧
    "password" ∉ instanceConfigKeys := by
  refine ⟨?_, fun c => rfl, by decide⟩
  revert h
  unfold deployVSCodeInstance
  repeat' split
  all_goals intro h
  all_goals simp_all

/-- Witness for C10 at the concrete successful deployment. -/
theorem c10_record_no_credential_witness :
    (∃ c, (deployVSCodeInstance cfgDefault envGood none paramsDemo).2.recordWritten = some c) ∧
    (∀ c : InstanceConfig, (serializeInstanceConfig c).map Prod.fst = instanceConfigKeys) ∧
    "password" ∉ instanceConfigKeys :=
  c10_record_no_credential cfgDefault envGood none paramsDemo rfl

/-- Claim C5 (amended): the credential component of the synthesized
invocation (the eleventh segment of the command) is the password flag
computed from the resolved password alone: empty when the resolved password
is the empty string, and exactly one flag carrying the configured default
when the caller omitted the password, the default never being empty; other
segments, such as the flags built from the caller environment mapping, can
still contain credential shaped text. -/
theorem c5_credential_amended (e : ConfigEnv) (rt iname ws : String) (port : Nat)
    (pw : String) (exts : List String) (cpu mem : String)
    (envm : List (String × String)) :
    (buildContainerCommandParts rt iname ws port pw exts cpu mem envm).get? 10 =
      some (passwordEnvFlag pw) ∧
    passwordEnvFlag "" = "" ∧
    (pw ≠ "" → passwordEnvFlag pw = "-e PASSWORD=" ++ pw) ∧
    (Config.fromEnv e).defaultPassword ≠ "" ∧
    Option.getD none (Config.fromEnv e).defaultPassword = (Config.fromEnv e).defaultPassword := by
  refine ⟨rfl, rfl, ?_, ?_, rfl⟩
  · intro h
    simp [passwordEnvFlag, h]
  · unfold Config.fromEnv jsOr
    cases e.DEFAULT_PASSWORD with
    | none => simp
    | some s =>
      by_cases hs : s = "" <;> simp [hs]

/-- Witness for the amended C5 at concrete inputs. -/
theorem c5_credential_amended_witness :
    (buildContainerCommandParts "docker" "vscode-demo-abcd1234" "/tmp/ws" 12345
      "changeme" ["ms-python.python"] "1.0" "2g" []).get? 10 =
      some (passwordEnvFlag "changeme") ∧
    passwordEnvFlag "" = "" ∧
    ("changeme" ≠ "" → passwordEnvFlag "changeme" = "-e PASSWORD=" ++ "changeme") ∧
    (Config.fromEnv ⟨none, none, none, none, none⟩).defaultPassword ≠ "" ∧
    Option.getD none (Config.fromEnv ⟨none, none, none, none, none⟩).defaultPassword =
      (Config.fromEnv ⟨none, none, none, none, none⟩).defaultPassword :=
  c5_credential_amended ⟨none, none, none, none, none⟩ "docker" "vscode-demo-abcd1234"
    "/tmp/ws" 12345 "changeme" ["ms-python.python"] "1.0" "2g" []

end Vsc
